import Mathlib

/-!
Verification of the connection core of `ilp-protocol-stream`
(`src/connection.ts`) against its natural-language specification.

The embedding below translates the relevant parts of `connection.ts` into
Lean. Wire amounts and byte offsets are arbitrary-precision non-negative
integers (`BigNumber` in the source), modelled as `Nat`; `BigNumber`
values that may be `Infinity` (such as `maximumPacketAmount`, which is
initialised to `new BigNumber(Infinity)`) are modelled as `Option Nat`
with `none` standing for `Infinity`. `BigNumber.dividedToIntegerBy` and
`integerValue(ROUND_FLOOR)` on non-negative values are `Nat` floor
division; `integerValue(ROUND_CEIL)` is ceiling division. Thrown
JavaScript errors are modelled with `Except`.
-/

namespace IlpStream

/-! ## Constants (`connection.ts` lines 32-39) -/

def RETRY_DELAY_START : Nat := 100

def RETRY_DELAY_MAX : Nat := 43200000

def DEFAULT_IDLE_TIMEOUT : Nat := 60000

def MAX_DATA_SIZE : Nat := 32767

def DEFAULT_MAX_REMOTE_STREAMS : Nat := 10

/-! ## Helpers for `BigNumber` values that may be `Infinity`

`none` stands for `Infinity`. -/

/-- `BigNumber.minimum a b` with `none = Infinity`. -/
def optMin : Option Nat → Option Nat → Option Nat
  | none, b => b
  | some a, none => some a
  | some a, some b => some (Nat.min a b)

/-- `a.isLessThan b` for possibly-infinite `a`, `b`:
`Infinity < x` is always false, finite `< Infinity` is always true. -/
def optLt : Option Nat → Option Nat → Bool
  | none, _ => false
  | some _, none => true
  | some a, some b => decide (a < b)

/-- `a.isLessThan n` for possibly-infinite `a` and finite `n`. -/
def optLtNat : Option Nat → Nat → Bool
  | none, _ => false
  | some a, n => decide (a < n)

/-- `BigNumber.minimum` over a list (used with a nonempty list in the code);
`none` both as the neutral element and as `Infinity`. -/
def minOverList (l : List (Option Nat)) : Option Nat :=
  l.foldr optMin none

/-! ## Error codes and frames (from `packet.ts`, used symbolically here)

Only the constructors and fields that `connection.ts` reads or writes are
modelled; human-readable error-message strings are omitted. -/

/-- `code[0] === 'T'`: whether a reject code's first character is `T`
(false for the empty string, whose `code[0]` is `undefined`). -/
def firstCharT (code : String) : Bool :=
  decide (code.data.head? = some 'T')

inductive ErrCode where
  | NoError
  | InternalError
  | StreamIdError
  | StreamStateError
  | FlowControlError
  | ApplicationError
  | ProtocolViolation
deriving Repr, DecidableEq

inductive QFrame where
  | connectionClose (code : ErrCode)
  | connectionMaxStreamId (maxId : Nat)
  | connectionStreamIdBlocked (nextId : Nat)
  | streamMaxMoney (sid : Nat) (receiveMax : Option Nat) (totalReceived : Nat)
  | streamClose (sid : Nat) (code : ErrCode)
deriving Repr, DecidableEq

/-! ## C3: ConnectionMaxData handling (`handleControlFrames`, lines 628-637)

```
case FrameType.ConnectionMaxData:
  if (frame.maxOffset.isGreaterThan(MAX_DATA_SIZE * 2)) {
    this.remoteMaxOffset = Math.max(frame.maxOffset.toNumber(), this.remoteMaxOffset)
  } else {
    this.remoteMaxOffset = frame.maxOffset.toNumber()
  }
```
-/

/-- The new value of `this.remoteMaxOffset` after a ConnectionMaxData frame
advertising `maxOffset`, given the current value `remoteMaxOffset`. -/
def handleConnectionMaxData (remoteMaxOffset maxOffset : Nat) : Nat :=
  if 2 * MAX_DATA_SIZE < maxOffset then
    Nat.max maxOffset remoteMaxOffset
  else
    maxOffset

/-! ## C4: idle timeout (`constructor` line 155, `startIdleTimer` lines 1496-1517)

```
this.idleTimeout = opts.idleTimeout || DEFAULT_IDLE_TIMEOUT
...
private startIdleTimer (): void {
  if (this.idleTimeout === 0) return
  ...
private testIdle (): void {
  const idle = Date.now() - this.lastActive.getTime()
  if (idle >= this.idleTimeout) { ... this.destroy(...) } else { this.startIdleTimer() }
```
-/

/-- The `idleTimeout` field as initialised by the Connection constructor:
`opts.idleTimeout || DEFAULT_IDLE_TIMEOUT`. In JavaScript both `undefined`
(modelled `none`) and `0` are falsy, so both yield the default. -/
def constructorIdleTimeout (optsIdleTimeout : Option Nat) : Nat :=
  match optsIdleTimeout with
  | some t => if t = 0 then DEFAULT_IDLE_TIMEOUT else t
  | none => DEFAULT_IDLE_TIMEOUT

/-- Whether `startIdleTimer` arms the timer (it returns early, leaving the
timer unarmed, exactly when `this.idleTimeout === 0`). -/
def startIdleTimerArms (idleTimeout : Nat) : Bool :=
  decide (idleTimeout ≠ 0)

/-- Whether `testIdle` destroys the connection, given the elapsed idle time:
`idle >= this.idleTimeout`. -/
def testIdleDestroys (idleTimeout elapsed : Nat) : Bool :=
  decide (idleTimeout ≤ elapsed)

/-! ## C5 / C6: send-state updates

Shared state record for the parts of `Connection` touched by the
fulfillment handling in `loadAndSendPacket` (lines 1029-1048) and by
`handleConnectorError` (lines 1389-1438). -/

structure SendState where
  testMaximumPacketAmount : Option Nat
  maximumPacketAmount : Option Nat
  retryDelay : Nat
deriving Repr, DecidableEq

/-- The test-maximum-packet and retry-delay update performed by
`loadAndSendPacket` when the response is a Fulfill (lines 1029-1048):

```
if (amountToSend.isEqualTo(this.testMaximumPacketAmount)
    && this.testMaximumPacketAmount.isLessThan(this.maximumPacketAmount)) {
  let newTestMax
  if (this.maximumPacketAmount.isFinite()) {
    const additiveIncrease = this.maximumPacketAmount.dividedToIntegerBy(10)
    newTestMax = BigNumber.min(this.testMaximumPacketAmount.plus(additiveIncrease), this.maximumPacketAmount)
  } else {
    newTestMax = this.testMaximumPacketAmount.times(2)
  }
  this.testMaximumPacketAmount = newTestMax
}
this.retryDelay = RETRY_DELAY_START
```
-/
def handleFulfillTestMax (amountToSend : Nat) (st : SendState) : SendState :=
  let st1 :=
    if some amountToSend = st.testMaximumPacketAmount
        ∧ optLt st.testMaximumPacketAmount st.maximumPacketAmount = true then
      match st.maximumPacketAmount, st.testMaximumPacketAmount with
      | some maxP, some testP =>
        { st with testMaximumPacketAmount := some (Nat.min (testP + maxP / 10) maxP) }
      | none, some testP =>
        { st with testMaximumPacketAmount := some (testP * 2) }
      | _, _ => st
    else st
  { st1 with retryDelay := RETRY_DELAY_START }

/-- `handleConnectorError` (lines 1389-1438), for a reject with the given
code. For F08 rejects, `f08data` is the parsed `(receivedAmount,
maximumAmount)` pair, or `none` when parsing the reject data failed.
The sleep in the T-branch is irrelevant to the state and omitted. -/
def handleConnectorError (code : String) (f08data : Option (Nat × Nat))
    (amountSent : Nat) (st : SendState) : Except String SendState :=
  if code = "F08" then
    let st1 :=
      match f08data with
      | some (recv, maxA) =>
        if maxA < recv then
          let newMaximum := amountSent * maxA / recv
          { st with maximumPacketAmount := some newMaximum,
                    testMaximumPacketAmount := some newMaximum }
        else
          { st with maximumPacketAmount := some (amountSent - 1),
                    testMaximumPacketAmount := some ((amountSent - 1) / 2) }
      | none =>
        { st with maximumPacketAmount := some (amountSent - 1),
                  testMaximumPacketAmount := some ((amountSent - 1) / 2) }
    if st1.maximumPacketAmount = some 0 then
      Except.error "Cannot send. Path has a Maximum Packet Amount of 0"
    else
      Except.ok st1
  else if firstCharT code = true then
    let st1 :=
      if code = "T04" then
        let minPacketAmount :=
          match st.testMaximumPacketAmount with
          | none => amountSent
          | some t => Nat.min amountSent t
        let newTestAmount := minPacketAmount - minPacketAmount / 3
        { st with testMaximumPacketAmount := some (Nat.max 2 newTestAmount) }
      else st
    Except.ok { st1 with retryDelay := Nat.min (st1.retryDelay * 2) RETRY_DELAY_MAX }
  else
    Except.error "Unexpected error while sending packet"

/-! ## C7: `createStream` (lines 295-316) and `nextStreamId` init (line 162)

```
this.nextStreamId = (this.isServer ? 2 : 1)
...
createStream (): DataAndMoneyStream {
  if (this.remoteMaxStreamId < this.nextStreamId) {
    this.queuedFrames.push(new ConnectionStreamIdBlockedFrame(this.nextStreamId))
    throw new Error(...)
  }
  const stream = new DataAndMoneyStream({ id: this.nextStreamId, ... })
  this.streams.set(this.nextStreamId, stream)
  this.nextStreamId += 2
  ...
  return stream
}
```
-/

structure CreateState where
  isServer : Bool
  nextStreamId : Nat
  remoteMaxStreamId : Nat
  streams : List Nat
  queuedFrames : List QFrame
deriving Repr, DecidableEq

/-- Initial value of `this.nextStreamId` (constructor line 162). -/
def initNextStreamId (isServer : Bool) : Nat :=
  if isServer then 2 else 1

/-- `createStream`. A thrown error is `Except.error` carrying the state as
mutated before the throw (the ConnectionStreamIdBlocked frame is queued
first); success returns the new state and the created stream's id. -/
def createStream (st : CreateState) : Except CreateState (CreateState × Nat) :=
  if st.remoteMaxStreamId < st.nextStreamId then
    Except.error { st with
      queuedFrames := st.queuedFrames ++ [QFrame.connectionStreamIdBlocked st.nextStreamId] }
  else
    Except.ok ({ st with
      streams := st.streams ++ [st.nextStreamId],
      nextStreamId := st.nextStreamId + 2 }, st.nextStreamId)

/-! ## C9: `connect` (lines 194-229)

```
async connect (): Promise<void> {
  if (!this.closed) {
    return Promise.resolve()
  }
  this.startSendLoop()
  await new Promise(...)   // registers connect/error/close/end listeners
  this.closed = false
  this.startIdleTimer()
}
```
-/

inductive ConnectEffect where
  | startSendLoop
  | awaitConnectEvent
  | startIdleTimer
deriving Repr, DecidableEq

/-- The connection state as seen by `connect`: the `closed` flag plus all
other fields, abstracted as an arbitrary payload `rest` so that "every
field unchanged" is expressible. -/
structure ConnectView (α : Type) where
  closed : Bool
  rest : α
deriving Repr, DecidableEq

/-- `connect()`. When the connection is already open (`closed = false`) the
function returns immediately with no effects. Otherwise (modelling the
successful completion of the awaited promise) it starts the send loop,
awaits the connect event, sets `closed := false` and starts the idle
timer. -/
def connectCall {α : Type} (st : ConnectView α) : ConnectView α × List ConnectEffect :=
  if st.closed = false then
    (st, [])
  else
    ({ st with closed := false },
     [ConnectEffect.startSendLoop, ConnectEffect.awaitConnectEvent,
      ConnectEffect.startIdleTimer])

/-! ## C10: `handleNewStream` (lines 734-781)

```
protected handleNewStream (streamId: number): void {
  if (this.streams.has(streamId) || this.closedStreams[streamId]) {
    return
  }
  if (this.isServer && streamId % 2 === 0) { ...queue ConnectionClose(ProtocolViolation); emit error; throw }
  else if (!this.isServer && streamId % 2 === 1) { ...same... }
  if (streamId > this.maxStreamId) { ...queue ConnectionClose(StreamIdError); emit error; throw }
  if (this.maxStreamId * .75 < streamId) { this.queuedFrames.push(new ConnectionMaxStreamIdFrame(this.maxStreamId)) }
  const stream = new DataAndMoneyStream(...)
  this.streams.set(streamId, stream)
  ...
  this.safeEmit('stream', stream)
}
```
-/

inductive HEvent where
  | errorEvent
  | streamEvent (id : Nat)
deriving Repr, DecidableEq

structure HNSState where
  isServer : Bool
  maxStreamId : Nat
  streams : List Nat
  closedStreams : List Nat
  queuedFrames : List QFrame
  events : List HEvent
deriving Repr, DecidableEq

/-- `handleNewStream`. A thrown error is `Except.error` carrying the state
as mutated before the throw (frame queued, error event emitted). The
float comparison `this.maxStreamId * .75 < streamId` is exact for the
integer values involved and is written `3 * maxStreamId < 4 * streamId`. -/
def handleNewStream (st : HNSState) (streamId : Nat) : Except HNSState HNSState :=
  if streamId ∈ st.streams ∨ streamId ∈ st.closedStreams then
    Except.ok st
  else if st.isServer = true ∧ streamId % 2 = 0 then
    Except.error { st with
      queuedFrames := st.queuedFrames ++ [QFrame.connectionClose ErrCode.ProtocolViolation],
      events := st.events ++ [HEvent.errorEvent] }
  else if st.isServer = false ∧ streamId % 2 = 1 then
    Except.error { st with
      queuedFrames := st.queuedFrames ++ [QFrame.connectionClose ErrCode.ProtocolViolation],
      events := st.events ++ [HEvent.errorEvent] }
  else if st.maxStreamId < streamId then
    Except.error { st with
      queuedFrames := st.queuedFrames ++ [QFrame.connectionClose ErrCode.StreamIdError],
      events := st.events ++ [HEvent.errorEvent] }
  else
    let st1 :=
      if 3 * st.maxStreamId < 4 * streamId then
        { st with queuedFrames := st.queuedFrames ++ [QFrame.connectionMaxStreamId st.maxStreamId] }
      else st
    Except.ok { st1 with
      streams := st1.streams ++ [streamId],
      events := st1.events ++ [HEvent.streamEvent streamId] }

/-! ## C8: connection totals

`_totalReceived`, `_totalSent`, `_totalDelivered` are initialised to 0 in
the constructor (lines 178-180) and updated at exactly two places:
`handlePrepare` line 583 (`this._totalReceived =
this._totalReceived.plus(prepare.amount)`) and `loadAndSendPacket` lines
1026-1027 (`this._totalDelivered =
this._totalDelivered.plus(responsePacket.prepareAmount); this._totalSent =
this._totalSent.plus(amountToSend)`). ILP amounts on the wire are
unsigned, hence `Nat`. -/

structure Totals where
  totalSent : Nat
  totalDelivered : Nat
  totalReceived : Nat
deriving Repr, DecidableEq

def initTotals : Totals := ⟨0, 0, 0⟩

/-- The operations that touch the totals. -/
inductive TotalsOp where
  /-- An inbound Prepare fulfilled by `handlePrepare` carrying `prepare.amount`. -/
  | inboundFulfill (prepareAmount : Nat)
  /-- An outbound packet fulfilled in `loadAndSendPacket`: the response's
  `prepareAmount` and the packet's `amountToSend`. -/
  | outboundFulfill (responsePrepareAmount amountSent : Nat)

def applyTotalsOp (t : Totals) : TotalsOp → Totals
  | TotalsOp.inboundFulfill a => { t with totalReceived := t.totalReceived + a }
  | TotalsOp.outboundFulfill pa sent =>
    { t with totalDelivered := t.totalDelivered + pa, totalSent := t.totalSent + sent }

/-! ## C1: money allocation in `handlePrepare` (lines 502-552)

```
const amountsToReceive = []
const totalMoneyShares = requestPacket.frames.reduce((sum, frame) => {
  if (frame instanceof StreamMoneyFrame) return sum.plus(frame.shares)
  return sum
}, new BigNumber(0))
for (let frame of requestPacket.frames) {
  if (!(frame instanceof StreamMoneyFrame)) continue
  const streamId = frame.streamId.toNumber()
  const streamAmount = new BigNumber(prepare.amount)
    .times(frame.shares).dividedBy(totalMoneyShares)
    .integerValue(BigNumber.ROUND_FLOOR)
  const stream = this.streams.get(streamId)!
  amountsToReceive.push({ stream, amount: streamAmount })
  const maxStreamCanReceive = stream._getAmountStreamCanReceive()
    .times(this.allowableReceiveExtra)         // 1.01
    .integerValue(BigNumber.ROUND_CEIL)
  if (maxStreamCanReceive.isLessThan(streamAmount)) {
    responseFrames.push(new StreamMaxMoneyFrame(streamId, stream.receiveMax, stream.totalReceived))
    throwFinalApplicationError()
  }
  if (!stream.isOpen()) {
    responseFrames.push(new StreamCloseFrame(streamId, ErrorCode.StreamStateError, 'Stream is already closed'))
    throwFinalApplicationError()
  }
}
for (let { stream, amount } of amountsToReceive) {
  stream._addToIncoming(amount)
}
```

The stream accessors `_getAmountStreamCanReceive()`, `receiveMax` and
`totalReceived` live in `stream.ts` (outside the given sources); their
return values are treated as inputs, recorded as fields of `StreamRec`.
A StreamMoney frame is a pair `(streamId, shares)`. -/

/-- The values a `DataAndMoneyStream` reports to `handlePrepare`. -/
structure StreamRec where
  isOpen : Bool
  /-- Return value of `_getAmountStreamCanReceive()` (may be `Infinity`). -/
  canReceive : Option Nat
  /-- The stream's `receiveMax` (may be `Infinity`). -/
  receiveMax : Option Nat
  /-- The stream's `totalReceived`. -/
  totalReceived : Nat
deriving Repr, DecidableEq

/-- `this.streams.get(sid)` over the registry. -/
def lookupStream (streams : List (Nat × StreamRec)) (sid : Nat) : Option StreamRec :=
  (streams.find? (fun p => p.1 = sid)).map Prod.snd

/-- `canReceive.times(1.01).integerValue(ROUND_CEIL)`: `1.01` is an exact
decimal in `BigNumber`, so this is `ceil (101 * c / 100)`. -/
def ceilTimes101 : Option Nat → Option Nat
  | none => none
  | some c => some ((c * 101 + 99) / 100)

/-- `totalMoneyShares`: sum of the `shares` of all StreamMoney frames. -/
def totalMoneyShares (frames : List (Nat × Nat)) : Nat :=
  frames.foldl (fun acc f => acc + f.2) 0

/-- Outcome of the allocation loop over the StreamMoney frames. -/
inductive AllocOutcome where
  /-- All checks passed; `credits` is `amountsToReceive` as a list of
  `(streamId, amount)` pairs in frame order. -/
  | allocOk (credits : List (Nat × Nat))
  /-- `maxStreamCanReceive.isLessThan(streamAmount)` held for `sid`; the
  StreamMaxMoney response frame carries the stream's `receiveMax` and
  `totalReceived`. -/
  | rejectMaxMoney (sid : Nat) (receiveMax : Option Nat) (totalReceived : Nat)
  /-- `!stream.isOpen()` held for `sid`; the response carries
  StreamClose(StreamStateError). -/
  | rejectClosed (sid : Nat)
  /-- The non-null assertion `this.streams.get(streamId)!` failed
  (unreachable after `handleNewStream` has run for every stream frame). -/
  | missingStream (sid : Nat)
deriving Repr, DecidableEq

/-- The loop of `handlePrepare` lines 510-547: per frame, the amount is
`floor (prepareAmount * shares / total)`; the ceiling check runs before
the `isOpen` check; the first violation aborts. -/
def buildAmountsToReceive (prepareAmount total : Nat) (streams : List (Nat × StreamRec)) :
    List (Nat × Nat) → AllocOutcome
  | [] => AllocOutcome.allocOk []
  | (sid, shares) :: rest =>
    let amount := prepareAmount * shares / total
    match lookupStream streams sid with
    | none => AllocOutcome.missingStream sid
    | some s =>
      if optLtNat (ceilTimes101 s.canReceive) amount = true then
        AllocOutcome.rejectMaxMoney sid s.receiveMax s.totalReceived
      else if s.isOpen = false then
        AllocOutcome.rejectClosed sid
      else
        match buildAmountsToReceive prepareAmount total streams rest with
        | AllocOutcome.allocOk credits => AllocOutcome.allocOk ((sid, amount) :: credits)
        | e => e

/-- Result of the money phase of `handlePrepare`: the `_addToIncoming`
calls actually performed and the response frame appended on rejection. -/
structure MoneyPhase where
  credits : List (Nat × Nat)
  responseFrame : Option QFrame
  fulfilled : Bool
deriving Repr, DecidableEq

/-- The money phase of `handlePrepare` (lines 502-552): run the checking
loop over the StreamMoney frames; only when every check passes are the
streams credited (lines 550-552), after which the packet is fulfilled. -/
def handlePrepareMoney (prepareAmount : Nat) (frames : List (Nat × Nat))
    (streams : List (Nat × StreamRec)) : MoneyPhase :=
  match buildAmountsToReceive prepareAmount (totalMoneyShares frames) streams frames with
  | AllocOutcome.allocOk credits => ⟨credits, none, true⟩
  | AllocOutcome.rejectMaxMoney sid rm tr =>
    ⟨[], some (QFrame.streamMaxMoney sid rm tr), false⟩
  | AllocOutcome.rejectClosed sid =>
    ⟨[], some (QFrame.streamClose sid ErrCode.StreamStateError), false⟩
  | AllocOutcome.missingStream _ => ⟨[], none, false⟩

/-! ## C2: the exchange-rate prober
(`sendTestPacketVolley` lines 1056-1105, `determineExchangeRate` lines 1111-1159)

A test packet's outcome, as returned by `sendTestPacket`, is one of:
a decrypted response `Packet` (F99 reject carrying data), an `IlpReject`
(modelled by its code, with an F08's parsed data attached), or `null`
(timeout / send error). -/

inductive TestResult where
  /-- An F08 reject. `data` is the parsed `(receivedAmount, maximumAmount)`
  pair, or `none` when reading the reject data threw. -/
  | f08 (data : Option (Nat × Nat))
  /-- An F99 reject carrying a decrypted response `Packet`; only its
  `prepareAmount` matters here. -/
  | response (prepareAmount : Nat)
  /-- Any other reject (or an F99 with empty data), by its code. -/
  | reject (code : String)
  /-- `null`: the send threw or timed out. -/
  | timeout
deriving Repr, DecidableEq

/-- The reject code of a result, when it has one (`result.code`). -/
def resultCode : TestResult → Option String
  | TestResult.f08 _ => some "F08"
  | TestResult.reject c => some c
  | _ => none

/-- The F08-derived maximum packet amount for one result
(`sendTestPacketVolley` lines 1067-1083):
`sourceAmount.times(maximumAmount).dividedToIntegerBy(receivedAmount)`,
and `Infinity` for non-F08 results or parse failures. A zero
`receivedAmount` with positive dividend yields `Infinity` in `BigNumber`,
hence `none`; the degenerate `0/0` (`NaN`) corner is idealised to the
same. -/
def deriveMaxPacket (sourceAmount : Nat) : TestResult → Option Nat
  | TestResult.f08 (some (recv, maxA)) =>
    if recv = 0 then none else some (sourceAmount * maxA / recv)
  | _ => none

/-- `maxPacketAmounts` of a volley, in order. -/
def volleyMaxPacketAmounts (pairs : List (Nat × TestResult)) : List (Option Nat) :=
  pairs.map (fun p => deriveMaxPacket p.1 p.2)

/-- `BigNumber.precision(true)` of a non-negative integer: its number of
decimal digits (1 for 0). -/
def digitCount (n : Nat) : Nat :=
  Nat.log 10 n + 1

/-- The `(maxDigits, exchangeRate)` accumulator of the reduce at lines
1086-1103: each response packet's `prepareAmount` is considered, and ties
or improvements on the digit count (`>=`) take over. -/
def volleyRateInfo (pairs : List (Nat × TestResult)) : Nat × Rat :=
  pairs.foldl
    (fun acc p =>
      match p.2 with
      | TestResult.response prepareAmount =>
        if acc.1 ≤ digitCount prepareAmount then
          (digitCount prepareAmount, (prepareAmount : Rat) / (p.1 : Rat))
        else acc
      | _ => acc)
    (0, 0)

/-- Whether `packetErrors.some(code => code[0] === 'T')` holds for the
volley. -/
def volleyHasTError (pairs : List (Nat × TestResult)) : Bool :=
  pairs.any (fun p =>
    match resultCode p.2 with
    | some c => firstCharT c
    | none => false)

structure VolleyOutcome where
  maxDigits : Nat
  exchangeRate : Rat
  maxPacketAmounts : List (Option Nat)
  hasTError : Bool

/-- `sendTestPacketVolley` over the volley's `(sourceAmount, result)`
pairs. -/
def sendTestPacketVolley (pairs : List (Nat × TestResult)) : VolleyOutcome :=
  ⟨(volleyRateInfo pairs).1, (volleyRateInfo pairs).2,
    volleyMaxPacketAmounts pairs, volleyHasTError pairs⟩

/-- The `maximumPacketAmount` / `testMaximumPacketAmount` pair, with
`none = Infinity` (both are initialised to `Infinity` in the
constructor). -/
structure ProbeState where
  maximumPacketAmount : Option Nat
  testMaximumPacketAmount : Option Nat
deriving Repr, DecidableEq

/-- The update performed after each volley (`determineExchangeRate` lines
1126-1127):
```
this.maximumPacketAmount = BigNumber.minimum(...maxPacketAmounts.concat(this.maximumPacketAmount))
this.testMaximumPacketAmount = this.maximumPacketAmount
``` -/
def applyVolleyUpdate (st : ProbeState) (maxPacketAmounts : List (Option Nat)) : ProbeState :=
  let m := minOverList (maxPacketAmounts ++ [st.maximumPacketAmount])
  ⟨m, m⟩

/-- The next volley's base amounts (lines 1142-1144): the finite derived
maxima, deduplicated preserving first-occurrence order. -/
def nextVolleyBase (maxPacketAmounts : List (Option Nat)) : List Nat :=
  (maxPacketAmounts.filterMap id).foldl
    (fun acc c => if c ∈ acc then acc else acc ++ [c]) []

/-- `testPacketAmounts.reduce((min, amount) => BigNumber.min(min, amount),
Infinity)` (line 1140). -/
def smallestAmount (amounts : List Nat) : Option Nat :=
  amounts.foldl
    (fun acc a =>
      match acc with
      | none => some a
      | some m => some (Nat.min m a))
    none

def maxZeroMsg : String :=
  "Cannot send. Path has a Maximum Packet Amount of 0"

def unableMsg : String :=
  "Unable to establish connection, no packets meeting the minimum exchange precision made it through the path."

/-- The `(sourceAmount, result)` pairs of one volley, with the result of
each test packet supplied by an oracle indexed by volley number and
source amount. -/
def volleyResultsFor (oracle : Nat → Nat → TestResult) (volleyIdx : Nat)
    (amounts : List Nat) : List (Nat × TestResult) :=
  amounts.map (fun a => (a, oracle volleyIdx a))

/-- The `while` loop of `determineExchangeRate` (lines 1122-1156). `fuel`
is `20 - attempts`; the loop exits when the exchange rate is found (it is
set and immediately returned), the volley is empty, or the attempt cap is
reached. Returns the outcome together with the number of volleys
performed. The local `retryDelay` and the sleep only pace the retries and
do not affect the returned state, so they are omitted. -/
def detERLoop (oracle : Nat → Nat → TestResult) (minPrec : Nat) :
    Nat → List Nat → ProbeState → Nat → Except String (Rat × ProbeState) × Nat
  | 0, _, _, volleys => (Except.error unableMsg, volleys)
  | fuel + 1, amounts, st, volleys =>
    if amounts.isEmpty = true then
      (Except.error unableMsg, volleys)
    else
      let pairs := volleyResultsFor oracle volleys amounts
      let v := sendTestPacketVolley pairs
      let st1 := applyVolleyUpdate st v.maxPacketAmounts
      if st1.maximumPacketAmount = some 0 then
        (Except.error maxZeroMsg, volleys + 1)
      else if minPrec ≤ v.maxDigits then
        (Except.ok (v.exchangeRate, st1), volleys + 1)
      else
        let base := nextVolleyBase v.maxPacketAmounts
        let amounts1 :=
          if v.hasTError = true then
            match smallestAmount amounts with
            | some s => base ++ [s - s / 3]
            | none => base
          else base
        detERLoop oracle minPrec fuel amounts1 st1 (volleys + 1)

/-- The initial volley (line 1118). -/
def initialTestPacketAmounts : List Nat :=
  [1, 1000, 1000000, 1000000000, 1000000000000]

/-- `determineExchangeRate`: at most 20 attempts, starting from the
initial volley and the current probe state. -/
def determineExchangeRate (oracle : Nat → Nat → TestResult) (minPrec : Nat)
    (st : ProbeState) : Except String (Rat × ProbeState) × Nat :=
  detERLoop oracle minPrec 20 initialTestPacketAmounts st 0

/-! ## Theorems -/

/-- C3 counterexample: the claim asserts that when a ConnectionMaxData
frame advertises a value not greater than `2 * MAX_DATA_SIZE`, the
resulting ceiling is not greater than the previous ceiling. With a
current ceiling of 100 (possible after an earlier lowering, or with a
small `connectionBufferSize`), an advertised offset of 200 is at most
65534, yet the ceiling is raised from 100 to 200. -/
theorem spec_C3_cex :
    handleConnectionMaxData 100 200 = 200 ∧ ¬ handleConnectionMaxData 100 200 ≤ 100 := by
  decide

/-- C3 (amended): for every received ConnectionMaxData frame, if the
advertised max-offset is greater than `2 * MAX_DATA_SIZE` (65534), the
remote outgoing-data ceiling becomes the maximum of its current value and
the advertised offset (so it is only raised); otherwise the ceiling is
overridden to the advertised value unconditionally (which may raise or
lower it). -/
theorem spec_C3 (cur adv : Nat) :
    (2 * MAX_DATA_SIZE < adv →
      handleConnectionMaxData cur adv = Nat.max adv cur
      ∧ cur ≤ handleConnectionMaxData cur adv)
    ∧ (adv ≤ 2 * MAX_DATA_SIZE → handleConnectionMaxData cur adv = adv) := by
  constructor
  · intro h
    unfold handleConnectionMaxData
    rw [if_pos h]
    exact ⟨rfl, Nat.le_max_right _ _⟩
  · intro h
    unfold handleConnectionMaxData
    rw [if_neg (by omega)]

/-- Witness for C3 at concrete inputs: 70000 > 65534 raises the ceiling
from 65534 to 70000; 400 ≤ 65534 overrides a ceiling of 500 down to 400. -/
theorem spec_C3_witness :
    handleConnectionMaxData 65534 70000 = 70000
    ∧ 65534 ≤ handleConnectionMaxData 65534 70000
    ∧ handleConnectionMaxData 500 400 = 400 := by
  refine ⟨((spec_C3 65534 70000).1 (by decide)).1.trans (by decide),
    ((spec_C3 65534 70000).1 (by decide)).2,
    (spec_C3 500 400).2 (by decide)⟩

/-- C4 (code bug): the claim says `idle_timeout = 0` disables the idle
timer, and `startIdleTimer` indeed guards on `idleTimeout === 0` — but
the constructor initialises the field with
`opts.idleTimeout || DEFAULT_IDLE_TIMEOUT`, and `0` is falsy in
JavaScript, so passing 0 yields the 60000 ms default: the guard is
unreachable, the timer is armed, and `testIdle` destroys the connection
after 60 s of inactivity. -/
theorem spec_C4_bug :
    constructorIdleTimeout (some 0) = 60000
    ∧ startIdleTimerArms (constructorIdleTimeout (some 0)) = true
    ∧ testIdleDestroys (constructorIdleTimeout (some 0)) 60000 = true
    ∧ startIdleTimerArms 0 = false := by
  decide

/-- C8: the connection totals start at 0 and every operation that touches
them adds a (non-negative) `Nat`: `prepare.amount` to `totalReceived` on
an inbound fulfill, and the response's `prepareAmount` / the sent amount
to `totalDelivered` / `totalSent` on an outbound fulfillment; hence each
total is monotonically non-decreasing across every operation. -/
theorem spec_C8 :
    initTotals = ⟨0, 0, 0⟩
    ∧ (∀ (t : Totals) (a : Nat),
        applyTotalsOp t (TotalsOp.inboundFulfill a) =
          { t with totalReceived := t.totalReceived + a })
    ∧ (∀ (t : Totals) (pa sent : Nat),
        applyTotalsOp t (TotalsOp.outboundFulfill pa sent) =
          { t with totalDelivered := t.totalDelivered + pa,
                   totalSent := t.totalSent + sent })
    ∧ (∀ (t : Totals) (op : TotalsOp),
        t.totalSent ≤ (applyTotalsOp t op).totalSent
        ∧ t.totalDelivered ≤ (applyTotalsOp t op).totalDelivered
        ∧ t.totalReceived ≤ (applyTotalsOp t op).totalReceived) := by
  refine ⟨rfl, fun t a => rfl, fun t pa sent => rfl, fun t op => ?_⟩
  cases op <;> simp [applyTotalsOp]

/-- C9: calling `connect()` on a connection that is already open
(`closed = false`) returns immediately: the state (every field) is
unchanged and no effects are performed — no send loop is started, no
listeners are registered, no timer is armed. -/
theorem spec_C9 {α : Type} (st : ConnectView α) (h : st.closed = false) :
    connectCall st = (st, []) := by
  unfold connectCall
  rw [if_pos h]

/-- Witness for C9 at a concrete already-open state. -/
theorem spec_C9_witness :
    connectCall (⟨false, 42⟩ : ConnectView Nat) = (⟨false, 42⟩, []) :=
  spec_C9 ⟨false, 42⟩ rfl

/-- C5 counterexample: the claim asserts that whenever a money packet
whose source amount equals `testMaximumPacketAmount` is fulfilled,
`testMaximumPacketAmount` is increased. With
`testMaximumPacketAmount = maximumPacketAmount = 100` and a fulfilled
packet of source amount 100, the guard
`testMaximumPacketAmount.isLessThan(maximumPacketAmount)` fails and the
value stays 100 (only the retry delay is reset). -/
theorem spec_C5_cex :
    handleFulfillTestMax 100 ⟨some 100, some 100, 500⟩ = ⟨some 100, some 100, 100⟩ := by
  decide

/-- C5 (amended): when a money packet whose source amount equals
`testMaximumPacketAmount` is fulfilled and additionally
`testMaximumPacketAmount < maximumPacketAmount`, then
`testMaximumPacketAmount` is raised to
`min (testMaximumPacketAmount + floor (maximumPacketAmount / 10),
maximumPacketAmount)` when `maximumPacketAmount` is finite, and doubled
when it is infinite; in all other cases it is unchanged. `retryDelay` is
reset to `RETRY_DELAY_START` (100 ms) on every fulfillment. -/
theorem spec_C5 (amountToSend testP d : Nat) :
    (∀ maxP : Nat,
      handleFulfillTestMax amountToSend ⟨some testP, some maxP, d⟩ =
        if amountToSend = testP ∧ testP < maxP then
          ⟨some (Nat.min (testP + maxP / 10) maxP), some maxP, RETRY_DELAY_START⟩
        else ⟨some testP, some maxP, RETRY_DELAY_START⟩)
    ∧ (handleFulfillTestMax amountToSend ⟨some testP, none, d⟩ =
        if amountToSend = testP then ⟨some (testP * 2), none, RETRY_DELAY_START⟩
        else ⟨some testP, none, RETRY_DELAY_START⟩)
    ∧ (∀ st : SendState, (handleFulfillTestMax amountToSend st).retryDelay = RETRY_DELAY_START) := by
  refine ⟨fun maxP => ?_, ?_, fun st => ?_⟩
  · by_cases h : amountToSend = testP ∧ testP < maxP
    · simp [handleFulfillTestMax, optLt, h.1, h.2, h]
    · rw [if_neg h]
      simp only [handleFulfillTestMax, optLt]
      rw [if_neg ?_]
      · intro hc
        exact h ⟨(Option.some.injEq _ _ ▸ hc.1 : amountToSend = testP),
          of_decide_eq_true hc.2⟩
  · by_cases h : amountToSend = testP
    · simp [handleFulfillTestMax, optLt, h]
    · rw [if_neg h]
      simp only [handleFulfillTestMax, optLt]
      rw [if_neg ?_]
      · intro hc
        exact h (Option.some.injEq _ _ ▸ hc.1 : amountToSend = testP)
  · unfold handleFulfillTestMax
    split
    · split <;> rfl
    · rfl

/-- C6 counterexample: the claim says the retry delay is multiplied by 1.5
on each non-F08 temporary (T-class) error. Handling a T01 reject with the
initial delay of 100 ms yields 200 ms (`this.retryDelay * 2`), not
150 ms. -/
theorem spec_C6_cex :
    handleConnectorError "T01" none 10 ⟨none, none, 100⟩ = Except.ok ⟨none, none, 200⟩
    ∧ (200 : Nat) ≠ 150 := by
  constructor
  · rfl
  · decide

/-- C6 (amended): each time a non-F08 temporary (T-class) connector error
is handled after sending a money packet, the retry delay is multiplied by
2 — not 1.5 — starting from `RETRY_DELAY_START` (100 ms) and capped at
`RETRY_DELAY_MAX` (12 hours = 43,200,000 ms). -/
theorem spec_C6 (code : String) (f08data : Option (Nat × Nat)) (amountSent : Nat)
    (st st1 : SendState)
    (hF : code ≠ "F08") (hT : firstCharT code = true)
    (h : handleConnectorError code f08data amountSent st = Except.ok st1) :
    st1.retryDelay = Nat.min (st.retryDelay * 2) RETRY_DELAY_MAX
    ∧ RETRY_DELAY_START = 100 ∧ RETRY_DELAY_MAX = 43200000 := by
  refine ⟨?_, rfl, rfl⟩
  unfold handleConnectorError at h
  rw [if_neg hF, if_pos hT] at h
  split at h
  · cases h
    rfl
  · cases h
    rfl

/-- Witness for C6: handling a T04 reject with delay 300 doubles it to
600 ≤ cap. -/
theorem spec_C6_witness :
    (⟨some 2, none, 600⟩ : SendState).retryDelay = Nat.min (300 * 2) RETRY_DELAY_MAX := by
  have h := spec_C6 "T04" none 1 ⟨none, none, 300⟩ ⟨some 2, none, 600⟩
    (by decide) (by decide) (by rfl)
  exact h.1

/-- C7: `createStream` queues a ConnectionStreamIdBlocked frame and throws
(creating no stream) when `nextStreamId > remoteMaxStreamId`; otherwise
it registers a stream whose id is `nextStreamId` and advances
`nextStreamId` by exactly 2, so locally-created ids start at 1 (client)
or 2 (server) and keep the role's parity. -/
theorem spec_C7 (st : CreateState) :
    (st.remoteMaxStreamId < st.nextStreamId →
      createStream st = Except.error { st with
        queuedFrames := st.queuedFrames ++ [QFrame.connectionStreamIdBlocked st.nextStreamId] })
    ∧ (st.nextStreamId ≤ st.remoteMaxStreamId →
      createStream st = Except.ok ({ st with
        streams := st.streams ++ [st.nextStreamId],
        nextStreamId := st.nextStreamId + 2 }, st.nextStreamId))
    ∧ (∀ r, createStream st = Except.ok r →
        r.2 = st.nextStreamId ∧ r.1.nextStreamId = st.nextStreamId + 2
        ∧ r.1.nextStreamId % 2 = st.nextStreamId % 2
        ∧ r.1.streams = st.streams ++ [st.nextStreamId])
    ∧ initNextStreamId false = 1 ∧ initNextStreamId true = 2 := by
  refine ⟨fun h => ?_, fun h => ?_, fun r h => ?_, rfl, rfl⟩
  · unfold createStream
    rw [if_pos h]
  · unfold createStream
    rw [if_neg (by omega)]
  · unfold createStream at h
    split at h
    · exact Except.noConfusion h
    · cases h
      exact ⟨rfl, rfl, Nat.add_mod_right st.nextStreamId 2, rfl⟩

/-- Witness for C7: with `nextStreamId = 5 > remoteMaxStreamId = 3` the
call fails and queues the blocked frame; with `nextStreamId = 1 ≤ 20` it
creates stream 1 and advances to 3. -/
theorem spec_C7_witness :
    createStream ⟨false, 5, 3, [], []⟩ =
      Except.error ⟨false, 5, 3, [], [QFrame.connectionStreamIdBlocked 5]⟩
    ∧ createStream ⟨false, 1, 20, [], []⟩ = Except.ok (⟨false, 3, 20, [1], []⟩, 1) := by
  exact ⟨(spec_C7 ⟨false, 5, 3, [], []⟩).1 (by decide),
    (spec_C7 ⟨false, 1, 20, [], []⟩).2.1 (by decide)⟩

/-- C10: `handleNewStream` is idempotent with respect to stream creation:
if the id is already in the stream registry or recorded in
`closedStreams`, it returns without modifying any state, queuing any
frame, or emitting any event; and after a successful creation, handling
the same id again is a no-op, so a stream is created and announced at
most once. -/
theorem spec_C10 (st : HNSState) (streamId : Nat) :
    ((streamId ∈ st.streams ∨ streamId ∈ st.closedStreams) →
      handleNewStream st streamId = Except.ok st)
    ∧ (∀ st1, handleNewStream st streamId = Except.ok st1 →
        handleNewStream st1 streamId = Except.ok st1) := by
  constructor
  · intro h
    unfold handleNewStream
    rw [if_pos h]
  · intro st1 h
    by_cases hmem : streamId ∈ st.streams ∨ streamId ∈ st.closedStreams
    · unfold handleNewStream at h
      rw [if_pos hmem] at h
      cases h
      unfold handleNewStream
      rw [if_pos hmem]
    · unfold handleNewStream at h
      rw [if_neg hmem] at h
      split at h
      · exact Except.noConfusion h
      · split at h
        · exact Except.noConfusion h
        · split at h
          · exact Except.noConfusion h
          · -- success: st1 registers streamId, so a second call hits the guard
            have hmem1 : streamId ∈ st1.streams ∨ streamId ∈ st1.closedStreams := by
              cases h
              left
              split <;> simp
            unfold handleNewStream
            rw [if_pos hmem1]

/-- Witness for C10: a server state that already has stream 1 registered
is returned unchanged, and creating fresh stream 3 then handling 3 again
is a no-op. -/
theorem spec_C10_witness :
    handleNewStream ⟨true, 20, [1], [], [], []⟩ 1 = Except.ok ⟨true, 20, [1], [], [], []⟩
    ∧ handleNewStream ⟨true, 20, [3], [], [], [HEvent.streamEvent 3]⟩ 3 =
        Except.ok ⟨true, 20, [3], [], [], [HEvent.streamEvent 3]⟩ := by
  refine ⟨(spec_C10 ⟨true, 20, [1], [], [], []⟩ 1).1 (Or.inl (by decide)), ?_⟩
  exact (spec_C10 ⟨true, 20, [], [], [], []⟩ 3).2
    ⟨true, 20, [3], [], [], [HEvent.streamEvent 3]⟩ (by rfl)

/-! ### Lemmas about the allocation loop (for C1) -/

theorem buildAmounts_ok_credits (pa total : Nat) (streams : List (Nat × StreamRec)) :
    ∀ (frames : List (Nat × Nat)) (credits : List (Nat × Nat)),
      buildAmountsToReceive pa total streams frames = AllocOutcome.allocOk credits →
      credits = frames.map (fun p => (p.1, pa * p.2 / total)) := by
  intro frames
  induction frames with
  | nil =>
    intro credits h
    simp only [buildAmountsToReceive] at h
    cases h
    rfl
  | cons f rest ih =>
    intro credits h
    obtain ⟨sid, shares⟩ := f
    simp only [buildAmountsToReceive] at h
    cases hl : lookupStream streams sid with
    | none =>
      simp only [hl] at h
      exact AllocOutcome.noConfusion h
    | some s =>
      simp only [hl] at h
      by_cases hceil : optLtNat (ceilTimes101 s.canReceive) (pa * shares / total) = true
      · rw [if_pos hceil] at h
        exact AllocOutcome.noConfusion h
      · rw [if_neg hceil] at h
        by_cases hopen : s.isOpen = false
        · rw [if_pos hopen] at h
          exact AllocOutcome.noConfusion h
        · rw [if_neg hopen] at h
          cases hr : buildAmountsToReceive pa total streams rest with
          | allocOk cr =>
            simp only [hr] at h
            cases h
            simp only [List.map]
            exact congrArg _ (ih cr hr)
          | rejectMaxMoney a b c =>
            simp only [hr] at h
            exact AllocOutcome.noConfusion h
          | rejectClosed a =>
            simp only [hr] at h
            exact AllocOutcome.noConfusion h
          | missingStream a =>
            simp only [hr] at h
            exact AllocOutcome.noConfusion h

theorem buildAmounts_ok_checks (pa total : Nat) (streams : List (Nat × StreamRec)) :
    ∀ (frames : List (Nat × Nat)) (credits : List (Nat × Nat)),
      buildAmountsToReceive pa total streams frames = AllocOutcome.allocOk credits →
      ∀ p ∈ frames, ∃ s, lookupStream streams p.1 = some s
        ∧ optLtNat (ceilTimes101 s.canReceive) (pa * p.2 / total) = false
        ∧ s.isOpen = true := by
  intro frames
  induction frames with
  | nil =>
    intro credits _ p hp
    exact absurd hp (List.not_mem_nil p)
  | cons f rest ih =>
    intro credits h p hp
    obtain ⟨sid, shares⟩ := f
    simp only [buildAmountsToReceive] at h
    cases hl : lookupStream streams sid with
    | none =>
      simp only [hl] at h
      exact AllocOutcome.noConfusion h
    | some s =>
      simp only [hl] at h
      by_cases hceil : optLtNat (ceilTimes101 s.canReceive) (pa * shares / total) = true
      · rw [if_pos hceil] at h
        exact AllocOutcome.noConfusion h
      · rw [if_neg hceil] at h
        by_cases hopen : s.isOpen = false
        · rw [if_pos hopen] at h
          exact AllocOutcome.noConfusion h
        · rw [if_neg hopen] at h
          cases hr : buildAmountsToReceive pa total streams rest with
          | allocOk cr =>
            rcases List.mem_cons.mp hp with hp1 | hp2
            · subst hp1
              exact ⟨s, hl, Bool.eq_false_iff.mpr hceil, Bool.not_eq_false _ ▸ hopen⟩
            · exact ih cr hr p hp2
          | rejectMaxMoney a b c =>
            simp only [hr] at h
            exact AllocOutcome.noConfusion h
          | rejectClosed a =>
            simp only [hr] at h
            exact AllocOutcome.noConfusion h
          | missingStream a =>
            simp only [hr] at h
            exact AllocOutcome.noConfusion h

theorem buildAmounts_rejectMaxMoney (pa total : Nat) (streams : List (Nat × StreamRec)) :
    ∀ (frames : List (Nat × Nat)) (sid : Nat) (rm : Option Nat) (tr : Nat),
      buildAmountsToReceive pa total streams frames = AllocOutcome.rejectMaxMoney sid rm tr →
      ∃ sh s, (sid, sh) ∈ frames ∧ lookupStream streams sid = some s
        ∧ rm = s.receiveMax ∧ tr = s.totalReceived
        ∧ optLtNat (ceilTimes101 s.canReceive) (pa * sh / total) = true := by
  intro frames
  induction frames with
  | nil =>
    intro sid rm tr h
    simp only [buildAmountsToReceive] at h
    exact AllocOutcome.noConfusion h
  | cons f rest ih =>
    intro sid rm tr h
    obtain ⟨sid0, shares0⟩ := f
    simp only [buildAmountsToReceive] at h
    cases hl : lookupStream streams sid0 with
    | none =>
      simp only [hl] at h
      exact AllocOutcome.noConfusion h
    | some s =>
      simp only [hl] at h
      by_cases hceil : optLtNat (ceilTimes101 s.canReceive) (pa * shares0 / total) = true
      · rw [if_pos hceil] at h
        cases h
        exact ⟨shares0, s, List.mem_cons_self _ _, hl, rfl, rfl, hceil⟩
      · rw [if_neg hceil] at h
        by_cases hopen : s.isOpen = false
        · rw [if_pos hopen] at h
          exact AllocOutcome.noConfusion h
        · rw [if_neg hopen] at h
          cases hr : buildAmountsToReceive pa total streams rest with
          | allocOk cr =>
            simp only [hr] at h
            exact AllocOutcome.noConfusion h
          | rejectMaxMoney a b c =>
            simp only [hr] at h
            cases h
            obtain ⟨sh, s1, hmem, hl1, hrm, htr, hc⟩ := ih sid rm tr hr
            exact ⟨sh, s1, List.mem_cons_of_mem _ hmem, hl1, hrm, htr, hc⟩
          | rejectClosed a =>
            simp only [hr] at h
            exact AllocOutcome.noConfusion h
          | missingStream a =>
            simp only [hr] at h
            exact AllocOutcome.noConfusion h

theorem buildAmounts_rejectClosed (pa total : Nat) (streams : List (Nat × StreamRec)) :
    ∀ (frames : List (Nat × Nat)) (sid : Nat),
      buildAmountsToReceive pa total streams frames = AllocOutcome.rejectClosed sid →
      ∃ sh s, (sid, sh) ∈ frames ∧ lookupStream streams sid = some s
        ∧ s.isOpen = false
        ∧ optLtNat (ceilTimes101 s.canReceive) (pa * sh / total) = false := by
  intro frames
  induction frames with
  | nil =>
    intro sid h
    simp only [buildAmountsToReceive] at h
    exact AllocOutcome.noConfusion h
  | cons f rest ih =>
    intro sid h
    obtain ⟨sid0, shares0⟩ := f
    simp only [buildAmountsToReceive] at h
    cases hl : lookupStream streams sid0 with
    | none =>
      simp only [hl] at h
      exact AllocOutcome.noConfusion h
    | some s =>
      simp only [hl] at h
      by_cases hceil : optLtNat (ceilTimes101 s.canReceive) (pa * shares0 / total) = true
      · rw [if_pos hceil] at h
        exact AllocOutcome.noConfusion h
      · rw [if_neg hceil] at h
        by_cases hopen : s.isOpen = false
        · rw [if_pos hopen] at h
          cases h
          exact ⟨shares0, s, List.mem_cons_self _ _, hl, hopen, Bool.eq_false_iff.mpr hceil⟩
        · rw [if_neg hopen] at h
          cases hr : buildAmountsToReceive pa total streams rest with
          | allocOk cr =>
            simp only [hr] at h
            exact AllocOutcome.noConfusion h
          | rejectMaxMoney a b c =>
            simp only [hr] at h
            exact AllocOutcome.noConfusion h
          | rejectClosed a =>
            simp only [hr] at h
            cases h
            obtain ⟨sh, s1, hmem, hl1, ho, hc⟩ := ih sid hr
            exact ⟨sh, s1, List.mem_cons_of_mem _ hmem, hl1, ho, hc⟩
          | missingStream a =>
            simp only [hr] at h
            exact AllocOutcome.noConfusion h

/-- C1: in the money phase of `handlePrepare`, each named stream is
allocated `floor (prepare.amount * shares / total shares)`; when the
packet is fulfilled every check passed and exactly those floor amounts
are credited; a rejection with a StreamMaxMoney frame identifies a frame
whose allocated amount exceeds `ceil (canReceive * 1.01)` and carries
that stream's `receiveMax` and `totalReceived`; a rejection with a
StreamClose(StreamStateError) frame identifies a frame targeting a
no-longer-open stream; any such violation prevents fulfillment; and in
every non-fulfilled case no stream is credited any amount. -/
theorem spec_C1 (pa : Nat) (frames : List (Nat × Nat)) (streams : List (Nat × StreamRec))
    (htot : 0 < totalMoneyShares frames) :
    ((handlePrepareMoney pa frames streams).fulfilled = true →
      (handlePrepareMoney pa frames streams).credits =
        frames.map (fun p => (p.1, pa * p.2 / totalMoneyShares frames))
      ∧ ∀ p ∈ frames, ∃ s, lookupStream streams p.1 = some s
          ∧ optLtNat (ceilTimes101 s.canReceive) (pa * p.2 / totalMoneyShares frames) = false
          ∧ s.isOpen = true)
    ∧ ((handlePrepareMoney pa frames streams).fulfilled = false →
        (handlePrepareMoney pa frames streams).credits = [])
    ∧ (∀ sid rm tr,
        (handlePrepareMoney pa frames streams).responseFrame =
          some (QFrame.streamMaxMoney sid rm tr) →
        (handlePrepareMoney pa frames streams).fulfilled = false
        ∧ ∃ sh s, (sid, sh) ∈ frames ∧ lookupStream streams sid = some s
            ∧ rm = s.receiveMax ∧ tr = s.totalReceived
            ∧ optLtNat (ceilTimes101 s.canReceive) (pa * sh / totalMoneyShares frames) = true)
    ∧ (∀ sid code,
        (handlePrepareMoney pa frames streams).responseFrame =
          some (QFrame.streamClose sid code) →
        code = ErrCode.StreamStateError
        ∧ (handlePrepareMoney pa frames streams).fulfilled = false
        ∧ ∃ sh s, (sid, sh) ∈ frames ∧ lookupStream streams sid = some s ∧ s.isOpen = false)
    ∧ ((∃ p ∈ frames, ∃ s, lookupStream streams p.1 = some s
          ∧ optLtNat (ceilTimes101 s.canReceive)
              (pa * p.2 / totalMoneyShares frames) = true) →
        (handlePrepareMoney pa frames streams).fulfilled = false)
    ∧ ((∃ p ∈ frames, ∃ s, lookupStream streams p.1 = some s ∧ s.isOpen = false) →
        (handlePrepareMoney pa frames streams).fulfilled = false) := by
  unfold handlePrepareMoney
  cases hb : buildAmountsToReceive pa (totalMoneyShares frames) streams frames with
  | allocOk credits =>
    refine ⟨fun _ => ⟨buildAmounts_ok_credits _ _ _ _ _ hb, buildAmounts_ok_checks _ _ _ _ _ hb⟩,
      fun hf => absurd hf (by simp), fun sid rm tr hfr => Option.noConfusion hfr,
      fun sid code hfr => Option.noConfusion hfr, fun hex => ?_, fun hex => ?_⟩
    · obtain ⟨p, hp, s, hl, hc⟩ := hex
      obtain ⟨s1, hl1, hc1, _⟩ := buildAmounts_ok_checks _ _ _ _ _ hb p hp
      rw [hl] at hl1
      cases hl1
      rw [hc] at hc1
      exact Bool.noConfusion hc1
    · obtain ⟨p, hp, s, hl, ho⟩ := hex
      obtain ⟨s1, hl1, _, ho1⟩ := buildAmounts_ok_checks _ _ _ _ _ hb p hp
      rw [hl] at hl1
      cases hl1
      rw [ho] at ho1
      exact Bool.noConfusion ho1
  | rejectMaxMoney sid0 rm0 tr0 =>
    refine ⟨fun hf => Bool.noConfusion hf, fun _ => rfl, fun sid rm tr hfr => ?_,
      fun sid code hfr => ?_, fun _ => rfl, fun _ => rfl⟩
    · simp only [Option.some.injEq, QFrame.streamMaxMoney.injEq] at hfr
      obtain ⟨h1, h2, h3⟩ := hfr
      subst h1; subst h2; subst h3
      exact ⟨rfl, buildAmounts_rejectMaxMoney _ _ _ _ _ _ _ hb⟩
    · exact absurd hfr (by simp)
  | rejectClosed sid0 =>
    refine ⟨fun hf => Bool.noConfusion hf, fun _ => rfl, fun sid rm tr hfr => ?_,
      fun sid code hfr => ?_, fun _ => rfl, fun _ => rfl⟩
    · exact absurd hfr (by simp)
    · simp only [Option.some.injEq, QFrame.streamClose.injEq] at hfr
      obtain ⟨h1, h2⟩ := hfr
      subst h1; subst h2
      obtain ⟨sh, s, hmem, hl, ho, _⟩ := buildAmounts_rejectClosed _ _ _ _ _ hb
      exact ⟨rfl, rfl, sh, s, hmem, hl, ho⟩
  | missingStream sid0 =>
    exact ⟨fun hf => Bool.noConfusion hf, fun _ => rfl,
      fun sid rm tr hfr => Option.noConfusion hfr,
      fun sid code hfr => Option.noConfusion hfr, fun _ => rfl, fun _ => rfl⟩

/-- Witness for C1: a packet of amount 100 with a single StreamMoney frame
of 1 share for open stream 1 (which can receive 200) is fulfilled and
credits exactly `floor (100 * 1 / 1) = 100`; and spec scenario S3 — a
stream that can only receive 100 being sent 150 (more than
`ceil (100 * 1.01) = 101`) — is not fulfilled (rejected, no credits). -/
theorem spec_C1_witness :
    (handlePrepareMoney 100 [(1, 1)] [(1, ⟨true, some 200, some 300, 7⟩)]).credits = [(1, 100)]
    ∧ (handlePrepareMoney 150 [(1, 1)] [(1, ⟨true, some 100, some 100, 0⟩)]).fulfilled = false := by
  constructor
  · exact (((spec_C1 100 [(1, 1)] [(1, ⟨true, some 200, some 300, 7⟩)]
      (by decide)).1 (by decide)).1).trans (by decide)
  · exact (spec_C1 150 [(1, 1)] [(1, ⟨true, some 100, some 100, 0⟩)]
      (by decide)).2.2.2.2.1 ⟨(1, 1), by decide, ⟨true, some 100, some 100, 0⟩, by decide, by decide⟩

/-! ### Lemmas about the prober loop (for C2) -/

theorem detERLoop_volleys_le (oracle : Nat → Nat → TestResult) (minPrec : Nat) :
    ∀ (fuel : Nat) (amounts : List Nat) (st : ProbeState) (volleys : Nat),
      (detERLoop oracle minPrec fuel amounts st volleys).2 ≤ volleys + fuel := by
  intro fuel
  induction fuel with
  | zero =>
    intro amounts st volleys
    simp [detERLoop]
  | succ n ih =>
    intro amounts st volleys
    rw [detERLoop]
    by_cases he : amounts.isEmpty = true
    · rw [if_pos he]
      omega
    · rw [if_neg he]
      by_cases hz : (applyVolleyUpdate st (sendTestPacketVolley
          (volleyResultsFor oracle volleys amounts)).maxPacketAmounts).maximumPacketAmount = some 0
      · rw [if_pos hz]
        omega
      · rw [if_neg hz]
        by_cases hp : minPrec ≤ (sendTestPacketVolley
            (volleyResultsFor oracle volleys amounts)).maxDigits
        · rw [if_pos hp]
          omega
        · rw [if_neg hp]
          exact le_trans (ih _ _ _) (by omega)

/-- C2: the exchange-rate prober starts with the volley
{1, 10^3, 10^6, 10^9, 10^12}; each F08-derived value is
`floor (source * maximum / received)`; after every volley
`maximumPacketAmount` becomes the minimum of its previous value and all
values derived from the volley, and `testMaximumPacketAmount` is set
equal to it; whenever that minimum is 0 the loop terminates by throwing;
and the whole probe performs at most 20 volleys. -/
theorem spec_C2 :
    initialTestPacketAmounts = [1, 1000, 1000000, 1000000000, 1000000000000]
    ∧ (∀ src recv maxA : Nat, 0 < recv →
        deriveMaxPacket src (TestResult.f08 (some (recv, maxA))) = some (src * maxA / recv))
    ∧ (∀ (st : ProbeState) (l : List (Option Nat)),
        (applyVolleyUpdate st l).maximumPacketAmount =
          minOverList (l ++ [st.maximumPacketAmount])
        ∧ (applyVolleyUpdate st l).testMaximumPacketAmount =
          (applyVolleyUpdate st l).maximumPacketAmount)
    ∧ (∀ (oracle : Nat → Nat → TestResult) (minPrec fuel : Nat) (amounts : List Nat)
        (st : ProbeState) (volleys : Nat),
        amounts ≠ [] →
        (applyVolleyUpdate st (sendTestPacketVolley
          (volleyResultsFor oracle volleys amounts)).maxPacketAmounts).maximumPacketAmount =
            some 0 →
        (detERLoop oracle minPrec (fuel + 1) amounts st volleys).1 = Except.error maxZeroMsg)
    ∧ (∀ (oracle : Nat → Nat → TestResult) (minPrec : Nat) (st : ProbeState),
        (determineExchangeRate oracle minPrec st).2 ≤ 20) := by
  refine ⟨rfl, fun src recv maxA h => ?_, fun st l => ⟨rfl, rfl⟩,
    fun oracle minPrec fuel amounts st volleys hne hz => ?_,
    fun oracle minPrec st => detERLoop_volleys_le oracle minPrec 20 _ st 0⟩
  · simp only [deriveMaxPacket]
    rw [if_neg (by omega)]
  · rw [detERLoop]
    rw [if_neg (by simp [List.isEmpty_iff, hne])]
    rw [if_pos hz]

/-- Witness for C2: spec scenario S2 — a test packet of 10^9 rejected with
F08 `received = 1500, maximum = 1000` derives
`floor (10^9 * 1000 / 1500) = 666666666`; and an oracle whose F08 data
makes every derived maximum 0 makes the loop throw on its first volley. -/
theorem spec_C2_witness :
    deriveMaxPacket 1000000000 (TestResult.f08 (some (1500, 1000))) = some 666666666
    ∧ (detERLoop (fun _ _ => TestResult.f08 (some (1, 0))) 3 1 [5] ⟨none, none⟩ 0).1 =
        Except.error maxZeroMsg := by
  constructor
  · exact (spec_C2.2.1 1000000000 1500 1000 (by decide)).trans (by decide)
  · exact spec_C2.2.2.2.1 (fun _ _ => TestResult.f08 (some (1, 0))) 3 0 [5] ⟨none, none⟩ 0
      (by decide) (by decide)

end IlpStream
